import Mathlib

/-!
Verification development for the training-time core of `dev_nb/nb_007.py`
(language-model window scheduling and the AWD-LSTM style encoder).

Conventions of the shallow embedding:
* token streams are `List Int`, the batch matrix is time-major `List (List Int)`;
* real-valued tensors are nested lists of `ℚ` (`T2`, `T3`);
* the random draws of `np.random` and of the Bernoulli dropout masks are
  explicit function parameters, so theorems quantify over all possible draws;
* Python attribute mutation becomes explicit state passing: methods return the
  updated object; a Python attribute that may not yet exist (`RNNCore.hidden`)
  is an `Option`, and reading it when absent is an `Except.error`
  (Python's `AttributeError`).
-/

set_option maxRecDepth 4000

abbrev T2 : Type := List (List ℚ)

abbrev T3 : Type := List (List (List ℚ))

/-- State of `LanguageModelLoader` from nb_007: `bs`, `bptt`, `backwards`,
the batchified `data` (time-major), the burn-in flag `first`, the time cursor
`i`, the iteration counter `iter` and the cached time extent `n`. -/
structure LanguageModelLoader where
  bs : Nat
  bptt : Nat
  backwards : Bool
  data : List (List Int)
  first : Bool
  i : Nat
  iter : Nat
  n : Nat
deriving DecidableEq

/-- `batchify`: `nb = len(data) // bs`; truncate to `nb*bs` tokens, reshape
row-major to `(bs, nb)` and transpose, so entry `(t, r)` of the result is
token `r*nb + t`; reverse the time axis when `backwards`. -/
def LanguageModelLoader.batchify (bs : Nat) (backwards : Bool) (nums : List Int) :
    List (List Int) :=
  let nb := nums.length / bs
  let d := (List.range nb).map fun t => (List.range bs).map fun r => nums.getD (r * nb + t) 0
  if backwards then d.reverse else d

/-- `LanguageModelLoader.__init__`. -/
def LanguageModelLoader.init (nums : List Int) (bs bptt : Nat) (backwards : Bool) :
    LanguageModelLoader :=
  let data := LanguageModelLoader.batchify bs backwards nums
  { bs := bs, bptt := bptt, backwards := backwards, data := data,
    first := true, i := 0, iter := 0, n := data.length }

/-- `LanguageModelLoader.__len__`: `(n-1) // bptt`. -/
def LanguageModelLoader.len (s : LanguageModelLoader) : Nat := (s.n - 1) / s.bptt

/-- `LanguageModelLoader.get_batch`: clamp `seq_len` to `len(data) - 1 - i`,
return `(data[i : i+seq_len], data[i+1 : i+1+seq_len].view(-1))`. -/
def LanguageModelLoader.get_batch (s : LanguageModelLoader) (i seq_len : Nat) :
    List (List Int) × List Int :=
  let sl := min seq_len (s.data.length - 1 - i)
  ((s.data.drop i).take sl, ((s.data.drop (i + 1)).take sl).flatten)

/-- Loop body of `LanguageModelLoader.__iter__`.  `draws k` is the `k`-th value
of `max(5, int(np.random.normal(bptt or bptt/2, 5)))`, the composite of the two
`np.random` calls of one non-burn-in iteration; the fuel argument only bounds
the recursion and never cuts the loop short, because the guard `iter < len`
increments `iter` on every pass and the fuel supplied by `iterAll` equals
`len`. -/
def LanguageModelLoader.runIter (draws : Nat → Nat) :
    Nat → LanguageModelLoader → Nat →
      List (List (List Int) × List Int) × LanguageModelLoader
  | 0, s, _ => ([], s)
  | fuel + 1, s, k =>
    if s.i < s.n - 1 ∧ s.iter < s.len then
      let fs : Bool × Nat × Nat :=
        if s.first ∧ s.i = 0 then (false, s.bptt + 25, k) else (s.first, draws k, k + 1)
      let res := s.get_batch s.i fs.2.1
      let s' := { s with first := fs.1, i := s.i + fs.2.1, iter := s.iter + 1 }
      let rest := LanguageModelLoader.runIter draws fuel s' fs.2.2
      (res :: rest.1, rest.2)
    else ([], s)

/-- `LanguageModelLoader.__iter__`: reset `i` and `iter` (but nothing else) and
run the guarded loop; returns the emitted windows in order together with the
loader state after the traversal. -/
def LanguageModelLoader.iterAll (s : LanguageModelLoader) (draws : Nat → Nat) :
    List (List (List Int) × List Int) × LanguageModelLoader :=
  LanguageModelLoader.runIter draws s.len { s with i := 0, iter := 0 } 0

/-- The guarded loop emits at most `fuel` windows. -/
theorem runIter_length_le (draws : Nat → Nat) :
    ∀ (fuel : Nat) (s : LanguageModelLoader) (k : Nat),
      ((LanguageModelLoader.runIter draws fuel s k).1).length ≤ fuel := by
  intro fuel
  induction fuel with
  | zero => intro s k; simp [LanguageModelLoader.runIter]
  | succ f ih =>
    intro s k
    simp only [LanguageModelLoader.runIter]
    split
    · simpa using ih _ _
    · simp

/-- Once the burn-in flag is off it stays off for the rest of the loop. -/
theorem runIter_first_false (draws : Nat → Nat) :
    ∀ (fuel : Nat) (s : LanguageModelLoader) (k : Nat), s.first = false →
      ((LanguageModelLoader.runIter draws fuel s k).2).first = false := by
  intro fuel
  induction fuel with
  | zero => intro s k h; simpa [LanguageModelLoader.runIter] using h
  | succ f ih =>
    intro s k h
    simp only [LanguageModelLoader.runIter]
    split
    · exact ih _ _ (by simp [h])
    · exact h

/-- C1: refuted at a concrete input.  With a 21-token stream, `bs = 1`,
`bptt = 10`, the claim predicts `⌊(n-1)/bptt⌋ = ⌊20/10⌋ = 2` windows, but the
burn-in window requests `seq_len = 35` and pushes the cursor past `n - 1 = 20`,
so one single window is emitted (whatever the random draws are: the first
window consumes no draw). -/
theorem c1_counterexample :
    ((LanguageModelLoader.init (List.replicate 21 (0 : Int)) 1 10 false).iterAll
        (fun _ => 5)).1.length = 1 ∧
      (LanguageModelLoader.init (List.replicate 21 (0 : Int)) 1 10 false).len = 2 ∧
      (1 : Nat) ≠ 2 := by
  refine ⟨by decide, by decide, by decide⟩

/-- C1 (amended): one full traversal of the scheduler yields at most
`⌊(n-1)/bptt⌋` windows, for every stream, every `bs`, `bptt` and every choice
of random draws; the exact count can be smaller because the loop also stops
when the cursor (advanced by the unclamped requested lengths) reaches `n-1`. -/
theorem c1_window_count_at_most (s : LanguageModelLoader) (draws : Nat → Nat) :
    ((s.iterAll draws).1).length ≤ s.len := by
  unfold LanguageModelLoader.iterAll
  exact runIter_length_le draws s.len { s with i := 0, iter := 0 } 0

/-- C2: refuted at a concrete input.  Restarting does not reset the burn-in
flag `first`: with a 10-token stream, `bs = 1`, `bptt = 1` and all draws equal
to `5`, the first window of the second traversal has length `5` (the drawn
value), whereas a burn-in request of `bptt + 25 = 26` would have produced a
window of length `min 26 (n-1) = 9`. -/
theorem c2_counterexample :
    (let s0 := LanguageModelLoader.init (List.replicate 10 (0 : Int)) 1 1 false
     let s1 := (s0.iterAll (fun _ => 5)).2
     (((s1.iterAll (fun _ => 5)).1.headD ([], [])).1.length = 5) ∧
       ((s0.get_batch 0 (s0.bptt + 25)).1.length = 9) ∧ (5 : Nat) ≠ 9) := by
  refine ⟨by decide, by decide, by decide⟩

/-- C2 (amended): restarting resets only the cursor and the iteration counter,
not the burn-in flag; the first window of a traversal uses
`seq_len = bptt + 25` exactly when the `first` flag is still set (i.e. only in
the first traversal after construction), and otherwise uses the first random
draw; any traversal that emits a window clears the flag. -/
theorem c2_first_window_burn_in (s : LanguageModelLoader) (draws : Nat → Nat)
    (h1 : 0 < s.len) (h2 : 1 < s.n) :
    (s.iterAll draws).1.head? =
      some (s.get_batch 0 (if s.first then s.bptt + 25 else draws 0)) ∧
      ((s.iterAll draws).2).first = false := by
  obtain ⟨f, hf⟩ : ∃ f, s.len = f + 1 := ⟨s.len - 1, by omega⟩
  have hlen : ({ s with i := 0, iter := 0 } : LanguageModelLoader).len = s.len := rfl
  have hcond : ({ s with i := 0, iter := 0 } : LanguageModelLoader).i <
      ({ s with i := 0, iter := 0 } : LanguageModelLoader).n - 1 ∧
      ({ s with i := 0, iter := 0 } : LanguageModelLoader).iter <
      ({ s with i := 0, iter := 0 } : LanguageModelLoader).len := by
    constructor
    · show (0 : Nat) < s.n - 1
      omega
    · rw [hlen]
      exact h1
  unfold LanguageModelLoader.iterAll
  rw [hf]
  simp only [LanguageModelLoader.runIter]
  rw [if_pos hcond]
  constructor
  · by_cases hsf : s.first <;> simp [hsf, LanguageModelLoader.get_batch]
  · refine runIter_first_false draws f _ _ ?_
    by_cases hsf : s.first <;> simp [hsf]

/-- Witness for `c2_first_window_burn_in` at a concrete fresh loader
(5 tokens, `bs = 1`, `bptt = 1`, all draws `5`). -/
theorem c2_first_window_burn_in_witness :
    ((LanguageModelLoader.init (List.replicate 5 (0 : Int)) 1 1 false).iterAll
        (fun _ => 5)).1.head? =
      some ((LanguageModelLoader.init (List.replicate 5 (0 : Int)) 1 1 false).get_batch 0
        (if (LanguageModelLoader.init (List.replicate 5 (0 : Int)) 1 1 false).first then
          (LanguageModelLoader.init (List.replicate 5 (0 : Int)) 1 1 false).bptt + 25
         else 5)) ∧
      (((LanguageModelLoader.init (List.replicate 5 (0 : Int)) 1 1 false).iterAll
        (fun _ => 5)).2).first = false :=
  c2_first_window_burn_in (LanguageModelLoader.init (List.replicate 5 (0 : Int)) 1 1 false)
    (fun _ => 5) (by decide) (by decide)

/-- C6: for every window request at cursor `i` with requested length
`seq_len`, the effective length is `min seq_len (n - 1 - i)`, the input is the
rows `i ..< i + len` of the batch matrix, and the flattened target consists of
the rows of the same region extended by one row with its first row dropped —
i.e. the target is the input shifted by one time step. -/
theorem c6_window_shift (s : LanguageModelLoader) (i seq_len : Nat) :
    (s.get_batch i seq_len).1.length = min seq_len (s.data.length - 1 - i) ∧
    (∀ t, t < min seq_len (s.data.length - 1 - i) →
      (s.get_batch i seq_len).1.getD t [] = s.data.getD (i + t) []) ∧
    (s.get_batch i seq_len).2 =
      (((s.data.drop i).take (min seq_len (s.data.length - 1 - i) + 1)).drop 1).flatten := by
  refine ⟨?_, ?_, ?_⟩
  · simp only [LanguageModelLoader.get_batch, List.length_take, List.length_drop]
    omega
  · intro t ht
    simp only [LanguageModelLoader.get_batch]
    rw [List.getD_eq_getElem?_getD, List.getD_eq_getElem?_getD,
      List.getElem?_take, if_pos ht, List.getElem?_drop]
  · simp only [LanguageModelLoader.get_batch]
    rw [List.drop_take, List.drop_drop]
    simp

/-- Witness for `c6_window_shift` on a concrete loader (8 tokens, `bs = 2`,
cursor 1, requested length 2). -/
theorem c6_window_shift_witness :
    ((LanguageModelLoader.init [0, 1, 2, 3, 4, 5, 6, 7] 2 2 false).get_batch 1 2).1.length =
      min 2 ((LanguageModelLoader.init [0, 1, 2, 3, 4, 5, 6, 7] 2 2 false).data.length - 1 - 1) ∧
      ((LanguageModelLoader.init [0, 1, 2, 3, 4, 5, 6, 7] 2 2 false).get_batch 1 2).1.getD 0 [] =
        (LanguageModelLoader.init [0, 1, 2, 3, 4, 5, 6, 7] 2 2 false).data.getD (1 + 0) [] := by
  have h := c6_window_shift (LanguageModelLoader.init [0, 1, 2, 3, 4, 5, 6, 7] 2 2 false) 1 2
  exact ⟨h.1, h.2.1 0 (by decide)⟩

/-- Concatenating the `nb`-sized consecutive slices of a stream rebuilds its
`k * nb`-token prefix. -/
theorem flatten_consecutive_slices (nums : List Int) (nb : Nat) :
    ∀ k : Nat, ((List.range k).map fun r => (nums.drop (r * nb)).take nb).flatten
      = nums.take (k * nb) := by
  intro k
  induction k with
  | zero => simp
  | succ m ih =>
    rw [List.range_succ, List.map_append, List.flatten_append, ih]
    have hmul : (m + 1) * nb = m * nb + nb := by ring
    rw [hmul, List.take_add]
    simp

/-- C7: with `backwards = False` the batch matrix has time extent
`nb = ⌊L/bs⌋`; reading stream `r < bs` in time order reproduces the contiguous
slice `[r*nb, (r+1)*nb)` of the original stream, and concatenating the `bs`
slices covers exactly the `bs*nb`-token prefix of the stream (so the slices
are disjoint, order-preserving and cover the truncated prefix). -/
theorem c7_batchify_order_preserving (nums : List Int) (bs : Nat) (hbs : 0 < bs) :
    (LanguageModelLoader.batchify bs false nums).length = nums.length / bs ∧
    (∀ r, r < bs →
      (LanguageModelLoader.batchify bs false nums).map (fun row => row.getD r 0) =
        (nums.drop (r * (nums.length / bs))).take (nums.length / bs)) ∧
    ((List.range bs).map fun r =>
        (nums.drop (r * (nums.length / bs))).take (nums.length / bs)).flatten =
      nums.take (bs * (nums.length / bs)) := by
  refine ⟨?_, ?_, flatten_consecutive_slices nums (nums.length / bs) bs⟩
  · simp [LanguageModelLoader.batchify]
  · intro r hr
    simp only [LanguageModelLoader.batchify, if_neg (by simp : ¬ false = true),
      List.map_map]
    apply List.ext_getElem?
    intro t
    by_cases ht : t < nums.length / bs
    · have hle : (r + 1) * (nums.length / bs) ≤ bs * (nums.length / bs) :=
        Nat.mul_le_mul_right _ (by omega)
      have hdiv : (nums.length / bs) * bs ≤ nums.length := Nat.div_mul_le_self _ _
      have hin : r * (nums.length / bs) + t < nums.length := by
        have h1 : r * (nums.length / bs) + (nums.length / bs) ≤ bs * (nums.length / bs) := by
          calc r * (nums.length / bs) + (nums.length / bs)
              = (r + 1) * (nums.length / bs) := by ring
            _ ≤ bs * (nums.length / bs) := hle
        have h2 : bs * (nums.length / bs) ≤ nums.length := by
          rw [Nat.mul_comm]; exact hdiv
        omega
      rw [List.getElem?_take, if_pos ht, List.getElem?_drop]
      rw [List.getElem?_map, List.getElem?_range ht, Option.map_some']
      simp only [Function.comp_apply]
      rw [List.getD_eq_getElem?_getD]
      rw [List.getElem?_map, List.getElem?_range hr, Option.map_some']
      simp only [Option.getD_some]
      rw [List.getD_eq_getElem?_getD, List.getElem?_eq_getElem hin]
      simp
    · rw [List.getElem?_take, if_neg ht]
      rw [List.getElem?_map]
      rw [(List.getElem?_eq_none (by simpa using Nat.le_of_not_lt ht) :
        (List.range (nums.length / bs))[t]? = none)]
      rfl

/-- Witness for `c7_batchify_order_preserving` on a 10-token stream with
`bs = 2`. -/
theorem c7_batchify_order_preserving_witness :
    (LanguageModelLoader.batchify 2 false [0, 1, 2, 3, 4, 5, 6, 7, 8, 9]).length =
      ([0, 1, 2, 3, 4, 5, 6, 7, 8, 9] : List Int).length / 2 ∧
    ((LanguageModelLoader.batchify 2 false [0, 1, 2, 3, 4, 5, 6, 7, 8, 9]).map
        (fun row => row.getD 1 0) =
      (([0, 1, 2, 3, 4, 5, 6, 7, 8, 9] : List Int).drop
          (1 * (([0, 1, 2, 3, 4, 5, 6, 7, 8, 9] : List Int).length / 2))).take
        (([0, 1, 2, 3, 4, 5, 6, 7, 8, 9] : List Int).length / 2)) ∧
    (((List.range 2).map fun r =>
        (([0, 1, 2, 3, 4, 5, 6, 7, 8, 9] : List Int).drop
            (r * (([0, 1, 2, 3, 4, 5, 6, 7, 8, 9] : List Int).length / 2))).take
          (([0, 1, 2, 3, 4, 5, 6, 7, 8, 9] : List Int).length / 2)).flatten =
      ([0, 1, 2, 3, 4, 5, 6, 7, 8, 9] : List Int).take
        (2 * (([0, 1, 2, 3, 4, 5, 6, 7, 8, 9] : List Int).length / 2))) := by
  have h := c7_batchify_order_preserving [0, 1, 2, 3, 4, 5, 6, 7, 8, 9] 2 (by decide)
  exact ⟨h.1, h.2.1 1 (by decide), h.2.2⟩

/-- `dropout_mask(x, sz, p)` for a 2-d size: `x.new(*sz).bernoulli_(1-p).div_(1-p)`.
The Bernoulli draw (success with probability `1-p`) is the explicit `draw`
parameter; kept entries are `1/(1-p)`, dropped entries are `0`. -/
def dropout_mask (draw : Nat → Nat → Bool) (rows cols : Nat) (p : ℚ) : T2 :=
  (List.range rows).map fun r => (List.range cols).map fun c =>
    (if draw r c then 1 else 0) / (1 - p)

/-- `RNNDropout`: stores its probability `p`; no validation happens at
construction. -/
structure RNNDropout where
  p : ℚ
deriving DecidableEq

/-- `RNNDropout.forward`: identity outside training or with `p = 0`; otherwise
draw one mask of shape `(1, x.size(1), x.size(2))` and multiply it into every
time slice (the same mask is broadcast across the time axis). -/
def RNNDropout.forward (d : RNNDropout) (training : Bool) (draw : Nat → Nat → Bool)
    (x : T3) : T3 :=
  if ¬ training = true ∨ d.p = 0 then x
  else
    let m := dropout_mask draw (x.headD []).length ((x.headD []).headD []).length d.p
    x.map fun slice => List.zipWith (fun row mrow => List.zipWith (· * ·) row mrow) slice m

/-- Wrapped embedding table: its weight matrix (`vocab_sz` rows) and optional
padding index.  The values are the state the claims are about; the torch
bookkeeping fields (`max_norm` etc.) only pass through `F.embedding`
unchanged and are omitted. -/
structure Embedding where
  weight : T2
  padding_idx : Option Int
deriving DecidableEq

/-- `EmbeddingDropout.__init__`: keep the wrapped table, the probability and
`pad_idx` (the table's padding index, or `-1` when it has none). -/
structure EmbeddingDropout where
  emb : Embedding
  embed_p : ℚ
  pad_idx : Int
deriving DecidableEq

def EmbeddingDropout.init (emb : Embedding) (embed_p : ℚ) : EmbeddingDropout :=
  { emb := emb, embed_p := embed_p, pad_idx := emb.padding_idx.getD (-1) }

/-- `EmbeddingDropout.forward`: in training with `embed_p ≠ 0` build a
per-row mask of shape `(vocab, 1)` and multiply it into a fresh copy of the
weight matrix; otherwise `masked_embed` is the stored weight matrix itself
(a Python alias, not a copy).  `if scale:` then performs the in-place
`masked_embed.mul_(scale)`; because of the aliasing this writes through to the
stored weight in the non-training/`p = 0` branch, which the returned updated
module records.  The result is the id lookup `F.embedding(words, masked_embed, ...)`. -/
def EmbeddingDropout.forward (ed : EmbeddingDropout) (training : Bool)
    (draw : Nat → Nat → Bool) (words : List Nat) (scale : Option ℚ) :
    T2 × EmbeddingDropout :=
  if training = true ∧ ed.embed_p ≠ 0 then
    let mask := dropout_mask draw ed.emb.weight.length 1 ed.embed_p
    let masked_embed : T2 := List.zipWith
      (fun (row mrow : List ℚ) => row.map (· * mrow.headD 0)) ed.emb.weight mask
    let masked_embed : T2 :=
      match scale with
      | some c =>
        if c ≠ 0 then masked_embed.map (fun (row : List ℚ) => row.map (· * c))
        else masked_embed
      | none => masked_embed
    (words.map (fun w => masked_embed.getD w []), ed)
  else
    match scale with
    | some c =>
      if c ≠ 0 then
        let scaled : T2 := ed.emb.weight.map (fun (row : List ℚ) => row.map (· * c))
        (words.map (fun w => scaled.getD w []),
          { ed with emb := { ed.emb with weight := scaled } })
      else (words.map (fun w => ed.emb.weight.getD w []), ed)
    | none => (words.map (fun w => ed.emb.weight.getD w []), ed)

/-- All-zero tensor of shape `(d, b, h)`. -/
def zeros3 (d b h : Nat) : T3 :=
  List.replicate d (List.replicate b (List.replicate h (0 : ℚ)))

/-- State of `RNNCore`: current batch size `bs` (initially 1), the topology
fields, the stored dropout submodules/probabilities, and the per-layer hidden
state.  `hidden` is `none` while the Python attribute does not exist yet
(no `reset` has run); each allocated layer state is a list of state tensors
(`[h]` for the QRNN cell family, `[h, c]` for LSTM).  The torch cells
themselves (`self.rnns`) are external collaborators and appear as a function
parameter of `forward`. -/
structure RNNCore where
  bs : Nat
  qrnn : Bool
  ndir : Nat
  emb_sz : Nat
  n_hid : Nat
  n_layers : Nat
  encoder_dp : EmbeddingDropout
  input_dp : RNNDropout
  hidden_p : ℚ
  weight_p : ℚ
  hidden : Option (List (List T3))
deriving DecidableEq

/-- `RNNCore.__init__` with `encWeight` standing for the uniformly initialised
embedding matrix (the random initial values are external input).  Note that no
probability is validated and no hidden state is allocated. -/
def RNNCore.init (vocab_sz emb_sz n_hid n_layers : Nat) (pad_token : Int)
    (encWeight : T2) (bidir : Bool) (hidden_p input_p embed_p weight_p : ℚ)
    (qrnn : Bool) : RNNCore :=
  { bs := 1, qrnn := qrnn, ndir := if bidir then 2 else 1,
    emb_sz := emb_sz, n_hid := n_hid, n_layers := n_layers,
    encoder_dp := EmbeddingDropout.init
      { weight := encWeight, padding_idx := some pad_token } embed_p,
    input_dp := { p := input_p },
    hidden_p := hidden_p, weight_p := weight_p,
    hidden := none }

/-- Construction as a fallible step: the only failure in
`RNNCore.__init__` is the `from qrnn import QRNNLayer` import when the QRNN
cell family is selected but its dependency is unavailable; in particular no
probability range check is performed. -/
def RNNCore.initE (qrnnAvailable : Bool) (vocab_sz emb_sz n_hid n_layers : Nat)
    (pad_token : Int) (encWeight : T2) (bidir : Bool)
    (hidden_p input_p embed_p weight_p : ℚ) (qrnn : Bool) : Except String RNNCore :=
  if qrnn = true ∧ qrnnAvailable = false then .error "ImportError: qrnn"
  else .ok (RNNCore.init vocab_sz emb_sz n_hid n_layers pad_token encWeight bidir
    hidden_p input_p embed_p weight_p qrnn)

/-- `RNNCore.one_hidden`: an all-zero tensor of shape
`(ndir, bs, (n_hid or emb_sz for the last layer) // ndir)`. -/
def RNNCore.one_hidden (c : RNNCore) (l : Nat) : T3 :=
  let nh := (if l ≠ c.n_layers - 1 then c.n_hid else c.emb_sz) / c.ndir
  zeros3 c.ndir c.bs nh

/-- `RNNCore.reset`: reallocate every layer's hidden state as zeros (a single
tensor per layer for QRNN, an `(h, c)` pair for LSTM). -/
def RNNCore.reset (c : RNNCore) : RNNCore :=
  { c with hidden := some ((List.range c.n_layers).map fun l =>
      if c.qrnn then [c.one_hidden l] else [c.one_hidden l, c.one_hidden l]) }

/-- Lines 140-142 of the source: if the incoming batch width differs from the
stored `bs`, store the new width and reset the hidden state; otherwise leave
the module untouched. -/
def RNNCore.batchResize (c : RNNCore) (bs : Nat) : RNNCore :=
  if bs ≠ c.bs then { c with bs := bs }.reset else c

/-- Per-layer loop of `RNNCore.forward`: thread the activation through the
cells, appending each new layer hidden state, each raw activation, and each
recorded output (hidden dropout applied to every layer except the last).
`cellF l x h` is the possibly weight-dropped recurrent cell of layer `l`
applied to activation `x` and layer state `h` — an external collaborator.
`hiddenDraw l` is the mask randomness of the layer's `RNNDropout`. -/
def RNNCore.layerStep (c : RNNCore) (training : Bool)
    (hiddenDraw : Nat → Nat → Nat → Bool)
    (cellF : Nat → T3 → List T3 → T3 × List T3) (hid : List (List T3))
    (acc : T3 × List (List T3) × List T3 × List T3) (l : Nat) :
    T3 × List (List T3) × List T3 × List T3 :=
  let cellOut := cellF l acc.1 (hid.getD l [])
  let nextX :=
    if l ≠ c.n_layers - 1 then
      (RNNDropout.mk c.hidden_p).forward training (hiddenDraw l) cellOut.1
    else cellOut.1
  (nextX, acc.2.1 ++ [cellOut.2], acc.2.2.1 ++ [cellOut.1], acc.2.2.2 ++ [nextX])

def RNNCore.layerLoop (c : RNNCore) (training : Bool)
    (hiddenDraw : Nat → Nat → Nat → Bool)
    (cellF : Nat → T3 → List T3 → T3 × List T3) (hid : List (List T3)) (x0 : T3) :
    T3 × List (List T3) × List T3 × List T3 :=
  (List.range c.n_layers).foldl (c.layerStep training hiddenDraw cellF hid) (x0, [], [], [])

/-- Fallible layer pass: the source reads `self.hidden[l]` only inside the
per-layer loop, so the read of a never-allocated hidden attribute (Python's
`AttributeError`) happens at the first loop iteration, not before the loop;
an encoder with zero layers never performs the read.  An earlier error
propagates through the remaining iterations unchanged. -/
def RNNCore.layerStepE (c : RNNCore) (training : Bool)
    (hiddenDraw : Nat → Nat → Nat → Bool)
    (cellF : Nat → T3 → List T3 → T3 × List T3) (hidO : Option (List (List T3)))
    (acc : Except String (T3 × List (List T3) × List T3 × List T3)) (l : Nat) :
    Except String (T3 × List (List T3) × List T3 × List T3) :=
  match acc with
  | .error e => .error e
  | .ok a =>
    match hidO with
    | none => .error "AttributeError: RNNCore object has no attribute hidden"
    | some hid => .ok (c.layerStep training hiddenDraw cellF hid a l)

def RNNCore.layerLoopE (c : RNNCore) (training : Bool)
    (hiddenDraw : Nat → Nat → Nat → Bool)
    (cellF : Nat → T3 → List T3 → T3 × List T3) (hidO : Option (List (List T3)))
    (x0 : T3) : Except String (T3 × List (List T3) × List T3 × List T3) :=
  (List.range c.n_layers).foldl (c.layerStepE training hiddenDraw cellF hidO)
    (.ok (x0, [], [], []))

/-- `RNNCore.forward`: read the batch width from the input, adjust/reset on a
width change, embed through `encoder_dp` (time slice by time slice, one
shared mask), apply input variational dropout, run the layer loop (which reads
the possibly missing hidden attribute at its first iteration and fails there
like Python's `AttributeError`), store the new hidden state (`repackage_var`
detaches from autograd history and keeps the values, so it is the identity on
the value level) and return the raw and dropout-adjusted per-layer activation
lists. -/
def RNNCore.forward (c : RNNCore) (input : List (List Int)) (training : Bool)
    (embDraw inputDraw : Nat → Nat → Bool) (hiddenDraw : Nat → Nat → Nat → Bool)
    (cellF : Nat → T3 → List T3 → T3 × List T3) :
    Except String (RNNCore × List T3 × List T3) :=
  let bs := (input.headD []).length
  let c1 := c.batchResize bs
  let embedded : T3 :=
    input.map fun row => (c1.encoder_dp.forward training embDraw (row.map Int.toNat) none).1
  let x0 := c1.input_dp.forward training inputDraw embedded
  match c1.layerLoopE training hiddenDraw cellF c1.hidden x0 with
  | .error e => .error e
  | .ok r => .ok ({ c1 with hidden := some r.2.1 }, r.2.2.1, r.2.2.2)

/-- C8: refuted at a concrete input, and the code (not the claim) is at fault.
In eval mode (or with `embed_p = 0`) `masked_embed` aliases the stored weight
matrix and `masked_embed.mul_(scale)` then mutates the wrapped table in place:
starting from weight `[[1]]` with `training = False` and `scale = 2`, the
weight after the forward call is `[[2]]`, not `[[1]]`. -/
theorem c8_embedding_dropout_mutates_weight :
    (EmbeddingDropout.init { weight := [[1]], padding_idx := none } (1/10)).emb.weight =
      [[1]] ∧
      (((EmbeddingDropout.init { weight := [[1]], padding_idx := none } (1/10)).forward
          false (fun _ _ => true) [0] (some 2)).2).emb.weight = [[2]] ∧
      ([[(2 : ℚ)]] : T2) ≠ [[1]] := by
  refine ⟨rfl, ?_, by norm_num⟩
  norm_num [EmbeddingDropout.init, EmbeddingDropout.forward]

/-- C4: refuted at a concrete input.  Construction with every dropout
probability equal to `2` (outside `[0,1)`) succeeds: `RNNCore.__init__` and
`RNNDropout.__init__` store the probabilities without any validation, so no
configuration error is raised at construction time. -/
theorem c4_counterexample :
    RNNCore.initE true 5 2 2 1 0 [[1, 1]] false 2 2 2 2 false =
      .ok (RNNCore.init 5 2 2 1 0 [[1, 1]] false 2 2 2 2 false) ∧
      (RNNCore.init 5 2 2 1 0 [[1, 1]] false 2 2 2 2 false).input_dp.p = 2 ∧
      (RNNDropout.mk 2).p = 2 ∧
      ¬ (0 ≤ (2 : ℚ) ∧ (2 : ℚ) < 1) := by
  refine ⟨rfl, rfl, rfl, by decide⟩

/-- C4 (amended): construction never validates the dropout probabilities.
For every probability values whatsoever (inside `[0,1)` or not), constructing
the encoder (with the LSTM cell family) and a dropout module succeeds and
stores the given probabilities unchanged; only the missing QRNN dependency can
make construction fail. -/
theorem c4_construction_never_validates (qrnnAvailable : Bool)
    (vocab_sz emb_sz n_hid n_layers : Nat) (pad_token : Int) (encWeight : T2)
    (bidir : Bool) (hidden_p input_p embed_p weight_p dp : ℚ) :
    RNNCore.initE qrnnAvailable vocab_sz emb_sz n_hid n_layers pad_token encWeight
        bidir hidden_p input_p embed_p weight_p false =
      .ok (RNNCore.init vocab_sz emb_sz n_hid n_layers pad_token encWeight bidir
        hidden_p input_p embed_p weight_p false) ∧
      (RNNCore.init vocab_sz emb_sz n_hid n_layers pad_token encWeight bidir
        hidden_p input_p embed_p weight_p false).hidden_p = hidden_p ∧
      (RNNCore.init vocab_sz emb_sz n_hid n_layers pad_token encWeight bidir
        hidden_p input_p embed_p weight_p false).input_dp.p = input_p ∧
      (RNNCore.init vocab_sz emb_sz n_hid n_layers pad_token encWeight bidir
        hidden_p input_p embed_p weight_p false).encoder_dp.embed_p = embed_p ∧
      (RNNCore.init vocab_sz emb_sz n_hid n_layers pad_token encWeight bidir
        hidden_p input_p embed_p weight_p false).weight_p = weight_p ∧
      (RNNDropout.mk dp).p = dp :=
  ⟨rfl, rfl, rfl, rfl, rfl, rfl⟩

/-- C3: whenever the incoming batch width `b` differs from the stored `bs`,
the width-adjustment step of `forward` (which runs before any hidden state is
read) stores `b` and reallocates every layer's hidden state as all-zero
tensors of shape `(ndir, b, layer hidden size)`. -/
theorem c3_width_change_resets_hidden (c : RNNCore) (b : Nat) (h : b ≠ c.bs) :
    (c.batchResize b).bs = b ∧
      (c.batchResize b).hidden = some ((List.range c.n_layers).map fun l =>
        if c.qrnn then
          [zeros3 c.ndir b ((if l ≠ c.n_layers - 1 then c.n_hid else c.emb_sz) / c.ndir)]
        else
          [zeros3 c.ndir b ((if l ≠ c.n_layers - 1 then c.n_hid else c.emb_sz) / c.ndir),
            zeros3 c.ndir b ((if l ≠ c.n_layers - 1 then c.n_hid else c.emb_sz) / c.ndir)]) := by
  unfold RNNCore.batchResize
  rw [if_pos h]
  exact ⟨rfl, by simp [RNNCore.reset, RNNCore.one_hidden]⟩

/-- Encoder instance for the concrete scenarios: `n_layers = 2`, fresh from
construction. -/
def rnnW : RNNCore :=
  RNNCore.init 5 2 2 2 0 (List.replicate 5 [1, 1]) false (1/2) (1/2) (1/10) (1/2) false

/-- Encoder state after a first forward call with batch width 4 (the echo cell
returns its input activation and hands back the hidden state it was given). -/
def rnnW2 : RNNCore :=
  match rnnW.forward [[0, 1, 2, 3]] false (fun _ _ => true) (fun _ _ => true)
      (fun _ _ _ => true) (fun _ x h => (x, h)) with
  | .ok r => r.1
  | .error _ => rnnW

/-- Witness for `c3_width_change_resets_hidden`: after forwarding `rnnW` with
width 4, a second call with width 6 resets the hidden state to zeros of batch
width 6. -/
theorem c3_width_change_resets_hidden_witness :
    (rnnW2.batchResize 6).bs = 6 ∧
      (rnnW2.batchResize 6).hidden = some ((List.range rnnW2.n_layers).map fun l =>
        if rnnW2.qrnn then
          [zeros3 rnnW2.ndir 6
            ((if l ≠ rnnW2.n_layers - 1 then rnnW2.n_hid else rnnW2.emb_sz) / rnnW2.ndir)]
        else
          [zeros3 rnnW2.ndir 6
            ((if l ≠ rnnW2.n_layers - 1 then rnnW2.n_hid else rnnW2.emb_sz) / rnnW2.ndir),
            zeros3 rnnW2.ndir 6
              ((if l ≠ rnnW2.n_layers - 1 then rnnW2.n_hid else rnnW2.emb_sz) / rnnW2.ndir)]) :=
  c3_width_change_resets_hidden rnnW2 6 (by decide)

/-- Checks whether a fallible computation succeeded. -/
def exceptIsOk {α : Type} (e : Except String α) : Bool :=
  match e with
  | .ok _ => true
  | .error _ => false

/-- The width-adjustment step never changes the layer count. -/
theorem batchResize_n_layers (c : RNNCore) (b : Nat) :
    (c.batchResize b).n_layers = c.n_layers := by
  unfold RNNCore.batchResize RNNCore.reset
  split <;> rfl

/-- The width-adjustment step is the identity when the width is unchanged. -/
theorem batchResize_eq_self (c : RNNCore) (b : Nat) (h : b = c.bs) :
    c.batchResize b = c := by
  unfold RNNCore.batchResize
  rw [if_neg (by omega)]

/-- With an allocated hidden state the fallible layer fold never fails and
agrees with the pure layer fold. -/
theorem layerStepE_foldl_some (c : RNNCore) (training : Bool)
    (hiddenDraw : Nat → Nat → Nat → Bool)
    (cellF : Nat → T3 → List T3 → T3 × List T3) (hid : List (List T3)) :
    ∀ (ls : List Nat) (a : T3 × List (List T3) × List T3 × List T3),
      ls.foldl (c.layerStepE training hiddenDraw cellF (some hid)) (.ok a) =
        .ok (ls.foldl (c.layerStep training hiddenDraw cellF hid) a) := by
  intro ls
  induction ls with
  | nil => intro a; rfl
  | cons x xs ih =>
    intro a
    rw [List.foldl_cons, List.foldl_cons]
    rw [show c.layerStepE training hiddenDraw cellF (some hid) (.ok a) x =
        .ok (c.layerStep training hiddenDraw cellF hid a x) from rfl]
    exact ih _

/-- With an allocated hidden state the fallible layer loop succeeds with the
pure layer loop's result. -/
theorem layerLoopE_some (c : RNNCore) (training : Bool)
    (hiddenDraw : Nat → Nat → Nat → Bool)
    (cellF : Nat → T3 → List T3 → T3 × List T3) (hid : List (List T3)) (x0 : T3) :
    c.layerLoopE training hiddenDraw cellF (some hid) x0 =
      .ok (c.layerLoop training hiddenDraw cellF hid x0) :=
  layerStepE_foldl_some c training hiddenDraw cellF hid (List.range c.n_layers) _

/-- An error value propagates unchanged through the fallible layer fold. -/
theorem layerStepE_foldl_error (c : RNNCore) (training : Bool)
    (hiddenDraw : Nat → Nat → Nat → Bool)
    (cellF : Nat → T3 → List T3 → T3 × List T3) (hidO : Option (List (List T3)))
    (e : String) :
    ∀ ls : List Nat,
      ls.foldl (c.layerStepE training hiddenDraw cellF hidO) (.error e) = .error e := by
  intro ls
  induction ls with
  | nil => rfl
  | cons x xs ih =>
    rw [List.foldl_cons]
    rw [show c.layerStepE training hiddenDraw cellF hidO (.error e) x = .error e from rfl]
    exact ih

/-- With at least one layer, a missing hidden attribute makes the layer loop
fail at its first iteration. -/
theorem layerLoopE_none (c : RNNCore) (training : Bool)
    (hiddenDraw : Nat → Nat → Nat → Bool)
    (cellF : Nat → T3 → List T3 → T3 × List T3) (x0 : T3) (hl : 0 < c.n_layers) :
    c.layerLoopE training hiddenDraw cellF none x0 =
      .error "AttributeError: RNNCore object has no attribute hidden" := by
  unfold RNNCore.layerLoopE
  obtain ⟨m, hm⟩ : ∃ m, c.n_layers = m + 1 := ⟨c.n_layers - 1, by omega⟩
  rw [hm, List.range_succ_eq_map, List.foldl_cons]
  rw [show c.layerStepE training hiddenDraw cellF none
      (.ok (x0, ([] : List (List T3)), ([] : List T3), ([] : List T3))) 0 =
      .error "AttributeError: RNNCore object has no attribute hidden" from rfl]
  exact layerStepE_foldl_error c training hiddenDraw cellF none _ _

/-- A forward call whose width-adjusted state still has no hidden attribute
fails on the first layer iteration's hidden-state read, provided there is at
least one layer. -/
theorem forward_hidden_missing (c : RNNCore) (input : List (List Int))
    (training : Bool) (embDraw inputDraw : Nat → Nat → Bool)
    (hiddenDraw : Nat → Nat → Nat → Bool)
    (cellF : Nat → T3 → List T3 → T3 × List T3)
    (hm : (c.batchResize ((input.headD []).length)).hidden = none)
    (hl : 0 < c.n_layers) :
    c.forward input training embDraw inputDraw hiddenDraw cellF =
      .error "AttributeError: RNNCore object has no attribute hidden" := by
  rw [RNNCore.forward, hm, layerLoopE_none]
  rw [batchResize_n_layers]
  exact hl

/-- Folding the layer step appends exactly one raw activation and one recorded
output per processed layer. -/
theorem layerStep_foldl_lengths (c : RNNCore) (training : Bool)
    (hiddenDraw : Nat → Nat → Nat → Bool)
    (cellF : Nat → T3 → List T3 → T3 × List T3) (hid : List (List T3)) :
    ∀ (ls : List Nat) (acc : T3 × List (List T3) × List T3 × List T3),
      ((ls.foldl (c.layerStep training hiddenDraw cellF hid) acc).2.2.1.length =
        acc.2.2.1.length + ls.length) ∧
      ((ls.foldl (c.layerStep training hiddenDraw cellF hid) acc).2.2.2.length =
        acc.2.2.2.length + ls.length) := by
  intro ls
  induction ls with
  | nil => intro acc; simp
  | cons a as ih =>
    intro acc
    simp only [List.foldl_cons, List.length_cons]
    have h2 := ih (c.layerStep training hiddenDraw cellF hid acc a)
    constructor
    · rw [h2.1]
      simp only [RNNCore.layerStep, List.length_append, List.length_cons,
        List.length_nil]
      omega
    · rw [h2.2]
      simp only [RNNCore.layerStep, List.length_append, List.length_cons,
        List.length_nil]
      omega

/-- The layer loop produces one raw activation and one recorded output per
layer. -/
theorem layerLoop_lengths (c : RNNCore) (training : Bool)
    (hiddenDraw : Nat → Nat → Nat → Bool)
    (cellF : Nat → T3 → List T3 → T3 × List T3) (hid : List (List T3)) (x0 : T3) :
    ((c.layerLoop training hiddenDraw cellF hid x0).2.2.1.length = c.n_layers) ∧
      ((c.layerLoop training hiddenDraw cellF hid x0).2.2.2.length = c.n_layers) := by
  unfold RNNCore.layerLoop
  have h := layerStep_foldl_lengths c training hiddenDraw cellF hid
    (List.range c.n_layers) (x0, [], [], [])
  simpa using h

/-- In the last processed layer the hidden-dropout branch is skipped, so the
raw activation list and the recorded output list end with the same tensor. -/
theorem layerLoop_getLast (c : RNNCore) (training : Bool)
    (hiddenDraw : Nat → Nat → Nat → Bool)
    (cellF : Nat → T3 → List T3 → T3 × List T3) (hid : List (List T3)) (x0 : T3) :
    ((c.layerLoop training hiddenDraw cellF hid x0).2.2.1).getLast? =
      ((c.layerLoop training hiddenDraw cellF hid x0).2.2.2).getLast? := by
  unfold RNNCore.layerLoop
  cases hn : c.n_layers with
  | zero => simp
  | succ m =>
    rw [List.range_succ, List.foldl_append, List.foldl_cons, List.foldl_nil]
    simp only [RNNCore.layerStep, hn]
    rw [if_neg (by omega)]
    rw [List.getLast?_concat, List.getLast?_concat]

/-- C9: whenever a forward call succeeds, the returned dropout-adjusted
activation list and raw activation list have one entry per layer and share
their final entry (no hidden dropout is applied to the last layer), so the AR
penalty (on the adjusted final activation) and the TAR penalty (on the raw
final activation) read identical tensor values. -/
theorem c9_last_raw_activation_eq_output (c : RNNCore) (input : List (List Int))
    (training : Bool) (embDraw inputDraw : Nat → Nat → Bool)
    (hiddenDraw : Nat → Nat → Nat → Bool)
    (cellF : Nat → T3 → List T3 → T3 × List T3)
    (c' : RNNCore) (rawOuts outs : List T3)
    (h : c.forward input training embDraw inputDraw hiddenDraw cellF =
      .ok (c', rawOuts, outs)) :
    rawOuts.getLast? = outs.getLast? ∧ rawOuts.length = c.n_layers ∧
      outs.length = c.n_layers := by
  rcases hm : (c.batchResize ((input.headD []).length)).hidden with _ | hid
  · by_cases hl : 0 < c.n_layers
    · rw [forward_hidden_missing c input training embDraw inputDraw hiddenDraw cellF
        hm hl] at h
      exact absurd h (by simp)
    · have h0 : c.n_layers = 0 := by omega
      have h0' : (c.batchResize ((input.headD []).length)).n_layers = 0 := by
        rw [batchResize_n_layers]
        exact h0
      rw [RNNCore.forward, hm] at h
      unfold RNNCore.layerLoopE at h
      rw [h0'] at h
      simp only [List.range_zero, List.foldl_nil, Except.ok.injEq,
        Prod.mk.injEq] at h
      obtain ⟨-, hraw, hout⟩ := h
      rw [← hraw, ← hout]
      simp [h0]
  · rw [RNNCore.forward, hm, layerLoopE_some] at h
    simp only [Except.ok.injEq, Prod.mk.injEq] at h
    obtain ⟨-, hraw, hout⟩ := h
    rw [← hraw, ← hout]
    refine ⟨layerLoop_getLast _ _ _ _ _ _, ?_, ?_⟩
    · rw [(layerLoop_lengths _ _ _ _ _ _).1, batchResize_n_layers]
    · rw [(layerLoop_lengths _ _ _ _ _ _).2, batchResize_n_layers]

/-- Result of a width-2 forward call on the fresh two-layer encoder. -/
def rnn9res : Except String (RNNCore × List T3 × List T3) :=
  rnnW.forward [[0, 1]] false (fun _ _ => true) (fun _ _ => true) (fun _ _ _ => true)
    (fun _ x h => (x, h))

def rnn9state : RNNCore :=
  match rnn9res with
  | .ok r => r.1
  | .error _ => rnnW

def rnn9raw : List T3 :=
  match rnn9res with
  | .ok r => r.2.1
  | .error _ => []

def rnn9out : List T3 :=
  match rnn9res with
  | .ok r => r.2.2
  | .error _ => []

/-- Witness for `c9_last_raw_activation_eq_output` on a concrete successful
forward call. -/
theorem c9_last_raw_activation_eq_output_witness :
    rnn9raw.getLast? = rnn9out.getLast? ∧ rnn9raw.length = rnnW.n_layers ∧
      rnn9out.length = rnnW.n_layers :=
  c9_last_raw_activation_eq_output rnnW [[0, 1]] false (fun _ _ => true)
    (fun _ _ => true) (fun _ _ _ => true) (fun _ x h => (x, h)) rnn9state rnn9raw
    rnn9out (by rfl)

/-- C10: refuted in a corner case.  With `n_layers = 0` the per-layer loop is
empty, so a freshly constructed encoder (which does store `bs = 1` and no
hidden state) forwarded with batch width exactly 1 never reads the missing
hidden attribute and the call succeeds, where the claim asserts it fails. -/
theorem c10_counterexample :
    (RNNCore.init 5 2 2 0 0 [[1, 1]] false 0 0 0 0 false).bs = 1 ∧
      (RNNCore.init 5 2 2 0 0 [[1, 1]] false 0 0 0 0 false).hidden = none ∧
      (([[0]] : List (List Int)).headD []).length = 1 ∧
      exceptIsOk ((RNNCore.init 5 2 2 0 0 [[1, 1]] false 0 0 0 0 false).forward [[0]]
          false (fun _ _ => true) (fun _ _ => true) (fun _ _ _ => true)
          (fun _ x h => (x, h))) = true := by
  refine ⟨rfl, rfl, by decide, by rfl⟩

/-- C10 (amended): a freshly constructed encoder stores `bs = 1` and allocates
no hidden state; provided the encoder has at least one recurrent layer (as
every real configuration does), the first forward call succeeds exactly when
the input's batch width differs from 1 (the width change triggers the
allocating reset), and fails on the never-allocated hidden state read inside
the layer loop when the width is exactly 1.  With zero layers the hidden state
is never read and the call succeeds regardless of the width. -/
theorem c10_fresh_forward_width_one_fails (vocab_sz emb_sz n_hid n_layers : Nat)
    (pad_token : Int) (encWeight : T2) (bidir : Bool) (hp ip ep wp : ℚ) (qrnn : Bool)
    (input : List (List Int)) (training : Bool)
    (embDraw inputDraw : Nat → Nat → Bool) (hiddenDraw : Nat → Nat → Nat → Bool)
    (cellF : Nat → T3 → List T3 → T3 × List T3) (hl : 0 < n_layers) :
    (RNNCore.init vocab_sz emb_sz n_hid n_layers pad_token encWeight bidir
        hp ip ep wp qrnn).bs = 1 ∧
      (RNNCore.init vocab_sz emb_sz n_hid n_layers pad_token encWeight bidir
        hp ip ep wp qrnn).hidden = none ∧
      exceptIsOk ((RNNCore.init vocab_sz emb_sz n_hid n_layers pad_token encWeight bidir
          hp ip ep wp qrnn).forward input training embDraw inputDraw hiddenDraw cellF) =
        ((input.headD []).length != 1) := by
  refine ⟨rfl, rfl, ?_⟩
  by_cases hw : (input.headD []).length = 1
  · have hm : ((RNNCore.init vocab_sz emb_sz n_hid n_layers pad_token encWeight bidir
        hp ip ep wp qrnn).batchResize ((input.headD []).length)).hidden = none := by
      rw [batchResize_eq_self _ _ hw]
      rfl
    have herr := forward_hidden_missing _ input training embDraw inputDraw hiddenDraw
      cellF hm hl
    rw [herr, hw]
    rfl
  · simp only [RNNCore.forward, RNNCore.batchResize, RNNCore.init]
    rw [if_pos hw]
    simp only [RNNCore.reset, layerLoopE_some, exceptIsOk]
    exact (bne_iff_ne.mpr hw).symm

/-- Witness for `c10_fresh_forward_width_one_fails` on a fresh two-layer
encoder forwarded with batch width 1. -/
theorem c10_fresh_forward_width_one_fails_witness :
    (RNNCore.init 5 2 2 2 0 [[1, 1]] false 0 0 0 0 false).bs = 1 ∧
      (RNNCore.init 5 2 2 2 0 [[1, 1]] false 0 0 0 0 false).hidden = none ∧
      exceptIsOk ((RNNCore.init 5 2 2 2 0 [[1, 1]] false 0 0 0 0 false).forward [[0]]
          false (fun _ _ => true) (fun _ _ => true) (fun _ _ _ => true)
          (fun _ x h => (x, h))) =
        ((([[0]] : List (List Int)).headD []).length != 1) :=
  c10_fresh_forward_width_one_fails 5 2 2 2 0 [[1, 1]] false 0 0 0 0 false [[0]]
    false (fun _ _ => true) (fun _ _ => true) (fun _ _ _ => true)
    (fun _ x h => (x, h)) (by decide)

/-- Sum of all entries of a matrix. -/
def q2sum (m : T2) : ℚ := (m.map (fun r => r.sum)).sum

/-- Sum of all entries of a 3-d tensor. -/
def t3sum (t : T3) : ℚ := (t.map q2sum).sum

/-- Number of entries of a 3-d tensor. -/
def t3count (t : T3) : Nat := (t.map (fun m => (m.map List.length).sum)).sum

/-- `tensor.mean()`. -/
def t3mean (t : T3) : ℚ := t3sum t / (t3count t : ℚ)

/-- `tensor.pow(2)`. -/
def t3sq (t : T3) : T3 := t.map (fun m => m.map (fun r => r.map (fun x => x * x)))

/-- Elementwise difference of two 3-d tensors. -/
def t3sub (a b : T3) : T3 :=
  List.zipWith (fun x y => List.zipWith (fun u v => List.zipWith (fun p q => p - q) u v) x y)
    a b

/-- `RNNTrainer` configuration: nominal `bptt`, the AR and TAR coefficients
and the lr-adjustment flag. -/
structure RNNTrainer where
  bptt : Nat
  alpha : ℚ
  beta : ℚ
  adjust : Bool
deriving DecidableEq

/-- `RNNTrainer.on_backward_begin`: when `adjust`, multiply the optimizer's
learning rate in place by `last_input.size(0) / bptt`; when `alpha ≠ 0` add
the AR penalty `alpha * out[-1].pow(2).mean()` to the loss; when `beta ≠ 0`
and the final raw activation has more than one time step, add the TAR penalty
`beta * (h[1:] - h[:-1]).pow(2).mean()`.  Returns the new `(lr, loss)`. -/
def RNNTrainer.on_backward_begin (tr : RNNTrainer) (lr last_loss : ℚ)
    (last_input_len : Nat) (raw_out out : List T3) : ℚ × ℚ :=
  let lr' := if tr.adjust then lr * ((last_input_len : ℚ) / (tr.bptt : ℚ)) else lr
  let loss1 :=
    if tr.alpha ≠ 0 then last_loss + tr.alpha * t3mean (t3sq (out.getLastD []))
    else last_loss
  let loss2 :=
    if tr.beta ≠ 0 then
      let h := raw_out.getLastD []
      if 1 < h.length then loss1 + tr.beta * t3mean (t3sq (t3sub (h.drop 1) h.dropLast))
      else loss1
    else loss1
  (lr', loss2)

/-- Trainer for the concrete lr scenarios: `bptt = 20`, adjustment enabled. -/
def trainerC5 : RNNTrainer := { bptt := 20, alpha := 0, beta := 0, adjust := true }

/-- C5: refuted at a concrete input.  With `bptt = 20` and an original
learning rate of `1`, two successive windows of realized length 10 leave the
learning rate at `1/4` when the second window's backward pass runs, not at the
claimed `1 * (10/20) = 1/2`: the `lr *= seq_len/bptt` update is never undone,
so the per-window factors accumulate. -/
theorem c5_counterexample :
    (trainerC5.on_backward_begin
        ((trainerC5.on_backward_begin 1 0 10 [] []).1) 0 10 [] []).1 = (1/4 : ℚ) ∧
      (1 : ℚ) * ((10 : ℚ) / (20 : ℚ)) ≠ (1/4 : ℚ) := by
  constructor
  · norm_num [RNNTrainer.on_backward_begin, trainerC5]
  · norm_num

/-- C5 (amended): the hook multiplies the current learning rate by the
window's ratio in place and never restores it, so after the hooks of windows
`w₁ … wₖ` the learning rate equals the original rate times the product of all
the per-window ratios `wᵢ / bptt` (the factors accumulate across windows
instead of applying to the configured rate one window at a time). -/
theorem c5_lr_factors_accumulate (tr : RNNTrainer) (h : tr.adjust = true) (lr0 : ℚ)
    (lens : List Nat) :
    lens.foldl (fun lr w => (tr.on_backward_begin lr 0 w [] []).1) lr0 =
      lr0 * (lens.map fun w => (w : ℚ) / (tr.bptt : ℚ)).prod := by
  induction lens generalizing lr0 with
  | nil => simp
  | cons w ws ih =>
    simp only [List.foldl_cons, List.map_cons, List.prod_cons]
    rw [ih]
    simp [RNNTrainer.on_backward_begin, h, mul_assoc]

/-- Witness for `c5_lr_factors_accumulate` with two windows of length 10 under
`bptt = 20`. -/
theorem c5_lr_factors_accumulate_witness :
    ([10, 10] : List Nat).foldl
        (fun lr w => (trainerC5.on_backward_begin lr 0 w [] []).1) 1 =
      1 * (([10, 10] : List Nat).map fun w => (w : ℚ) / (trainerC5.bptt : ℚ)).prod :=
  c5_lr_factors_accumulate trainerC5 rfl 1 [10, 10]
